import Mathlib

/-!
Verification of the parametric structural geometry core of the `ada`
repository (src/src/ada). Python floating-point scalars are embedded as
exact rationals (`ℚ`); decimal literals of the source (0.001, 1000.0,
1e-4, ...) are read as the decimal numbers they denote. Euclidean norms
are compared through their squares (for nonnegative bounds t we use
`normSq v < t ^ 2`, equivalent to `sqrt (normSq v) < t`), which keeps
every predicate decidable. Helper modules of the repository that are not
part of the provided sources (ada/core/vector_utils.py,
ada/core/utils.py, ada/concepts/points.py, ada/sections/categories.py,
ada/sections/profiles.py) are modelled from the specification; each such
definition carries a doc comment starting with `Modelled from the spec:`.
All other definitions are direct translations of the Python source.
-/

namespace Adapy

/-- Error taxonomy of the core, following spec section 7 ("kinds, not
concrete type names").  `degenerateGeometry` and `invalidUpVector` are the
two distinct ValueError raises of the frame derivation,
`unsupportedSectionType` is the ValueError of build_section_profile,
`invalidUnit` is ada.base.units.InvalidUnit, `notImplemented` is Python's
NotImplementedError (raised by the Root.units property setter),
`valueError` and `indexError` are Python's ValueError / IndexError raised
by Wall.get_segment_props and list indexing, `noScaleFactor` marks a unit
conversion whose scale-factor lookup returned None. -/
inductive AdaError where
  | degenerateGeometry
  | invalidUpVector
  | unsupportedSectionType
  | invalidUnit
  | notImplemented
  | valueError
  | indexError
  | noScaleFactor
deriving DecidableEq

/-- A 3D point / vector with exact rational coordinates (embedding of the
numpy float arrays used throughout ada.concepts.structural). -/
structure Vec3 where
  x : ℚ
  y : ℚ
  z : ℚ
deriving DecidableEq

instance : Zero Vec3 := ⟨⟨0, 0, 0⟩⟩

instance : Add Vec3 := ⟨fun a b => ⟨a.x + b.x, a.y + b.y, a.z + b.z⟩⟩

instance : Sub Vec3 := ⟨fun a b => ⟨a.x - b.x, a.y - b.y, a.z - b.z⟩⟩

instance : SMul ℚ Vec3 := ⟨fun c v => ⟨c * v.x, c * v.y, c * v.z⟩⟩

/-- Squared Euclidean norm of a vector.  The source compares
`np.linalg.norm` results against nonnegative bounds only; every such
comparison is embedded as the equivalent comparison of squares. -/
def normSq (v : Vec3) : ℚ :=
  v.x * v.x + v.y * v.y + v.z * v.z

/-- Squared distance between two points. -/
def sqDist (p q : Vec3) : ℚ :=
  normSq (p - q)

/-- Cross product (numpy `np.cross`). -/
def cross (a b : Vec3) : Vec3 :=
  ⟨a.y * b.z - a.z * b.y, a.z * b.x - a.x * b.z, a.x * b.y - a.y * b.x⟩

/-- The two supported length units (class `Units` of ada/base/units.py). -/
inductive Units where
  | M
  | MM
deriving DecidableEq

/-- ASCII lower-casing of a string, used to embed Python's `str.lower`
on the unit tokens involved (which are pure ASCII). -/
def lowerStr (s : String) : String :=
  String.mk (s.data.map Char.toLower)

/-- The value strings of the `Units` enum members, lower-cased
(`[x.value.lower() for x in Units]` with values "m" and "mm"). -/
def Units.value_strings : List String := ["m", "mm"]

/-- Direct translation of `Units.is_valid_unit` (ada/base/units.py):
membership of the lower-cased token in the enum's value strings. -/
def Units.is_valid_unit (unit : String) : Bool :=
  Units.value_strings.contains (lowerStr unit)

/-- The dictionary `{x.value.lower(): x for x in Units}` built inside
`Units.from_str`. -/
def Units.units_map : List (String × Units) := [("m", Units.M), ("mm", Units.MM)]

/-- Direct translation of `Units.from_str` (ada/base/units.py).  The
Python function looks the lower-cased token up, raises `InvalidUnit` when
the lookup misses, and then falls off the end of the function body: for a
recognized token it implicitly returns `None`, never the enum member.
The implicit `return None` is embedded as `.ok none`. -/
def Units.from_str (unit : String) : Except AdaError (Option Units) :=
  let unit_safe := Units.units_map.lookup (lowerStr unit)
  match unit_safe with
  | none => .error .invalidUnit
  | some _ => .ok none

/-- Direct translation of `Units.get_scale_factor` (ada/base/units.py):
`scale_map.get((from_unit, to_unit))` over the dictionary
`{(MM, M): 0.001, (M, M): 1.0, (M, MM): 1000.0}`.  The dictionary has no
`(MM, MM)` key, so that lookup yields `None`. -/
def Units.get_scale_factor (from_unit to_unit : Units) : Option ℚ :=
  match from_unit, to_unit with
  | .MM, .M => some (1 / 1000)
  | .M, .M => some 1
  | .M, .MM => some 1000
  | .MM, .MM => none

/-- Direct translation of the units handling of `Root.__init__`
(ada/base/root.py lines 35-37): a string argument is passed through
`Units.from_str` before being stored in `self._units`; an enum argument
is stored as given.  The stored unit is therefore `Option Units`. -/
def rootInitUnits (units : Units ⊕ String) : Except AdaError (Option Units) :=
  match units with
  | .inl u => .ok (some u)
  | .inr s => Units.from_str s

/-- Global tolerance constants of ada Settings (ada/config/__init__.py). -/
def Settings.point_tol : ℚ := 1 / 10000

/-- Meter-regime tolerance Settings.mtol (ada/config/__init__.py). -/
def Settings.mtol : ℚ := 1 / 1000

/-- Millimeter-regime tolerance Settings.mmtol (ada/config/__init__.py). -/
def Settings.mmtol : ℚ := 1

/-- Modelled from the spec: ada/core/utils.py (unit_length_conversion) is
not among the provided sources; per spec section 4.4 the cascade computes
its scale factor once through the Unit System lookup and correctness
depends on validating that a factor exists, so a missing factor is an
error. -/
def unit_length_conversion (ofrom oto : Units) : Except AdaError ℚ :=
  match Units.get_scale_factor ofrom oto with
  | some f => .ok f
  | none => .error .noScaleFactor

/-- Modelled from the spec: Node (ada/concepts/points.py, not among the
provided sources) is a 3D coordinate with an associated unit (spec
section 3). -/
structure NodeU where
  p : Vec3
  units : Units
deriving DecidableEq

/-- Modelled from the spec: the Node unit setter multiplies the stored
position by the Unit System scale factor under the idempotence guard
(spec section 4.4: node positions are among the length-valued attributes
multiplied by the scale). -/
def node_set_units (n : NodeU) (value : Units) : Except AdaError NodeU :=
  if n.units ≠ value then do
    let f ← unit_length_conversion n.units value
    .ok ⟨f • n.p, value⟩
  else .ok n

/-- Material state relevant to the unit cascade (ada/materials/concept.py):
only the unit itself matters here, because the assignment below never
reaches any material attribute. -/
structure MaterialU where
  units : Units
deriving DecidableEq

/-- Direct translation of the effect of the statement
`self.material.units = value` executed by the Beam.units and Plate.units
setters: the Material dataclass (ada/materials/concept.py) defines a
`set_units` method but does not override the `units` property, so the
assignment dispatches to the inherited Root.units property setter
(ada/base/root.py), which unconditionally raises NotImplementedError. -/
def material_set_units (_m : MaterialU) (_value : Units) : Except AdaError MaterialU :=
  .error .notImplemented

/-- Modelled from the spec: a boundary curve is carried as its list of
control points; CurvePoly.scale(scale_factor, tol) rescales the control
points (spec section 4.4); the closure re-validation against tol does not
change the stored points and is not modelled. -/
def curve_scale (f : ℚ) (_tol : ℚ) (c : List Vec3) : List Vec3 :=
  c.map (fun p => f • p)

/-- Section state touched by the claims (ada/sections/concept.py): the
categorized type string, the eight dimensional parameters (None when
absent, exactly the keys the units setter rescales), the optional
explicit outer and inner polygons, and the unit. -/
structure SectionU where
  sec_type : String
  h : Option ℚ
  w_top : Option ℚ
  w_btn : Option ℚ
  t_w : Option ℚ
  t_ftop : Option ℚ
  t_fbtn : Option ℚ
  r : Option ℚ
  wt : Option ℚ
  poly_outer : Option (List Vec3)
  poly_inner : Option (List Vec3)
  units : Units
deriving DecidableEq

/-- Direct translation of the Section.units property setter
(ada/sections/concept.py): under the idempotence guard it computes the
scale factor once, scales the inner and outer polygons when present with
Settings.point_tol as curve tolerance, multiplies every non-None entry of
the dimensional keys [h, w_top, w_btn, t_w, t_ftop, t_fbtn, r, wt] by the
factor, and finally updates the stored unit. -/
def section_set_units (s : SectionU) (value : Units) : Except AdaError SectionU :=
  if s.units ≠ value then do
    let f ← unit_length_conversion s.units value
    .ok { s with
      h := s.h.map (· * f)
      w_top := s.w_top.map (· * f)
      w_btn := s.w_btn.map (· * f)
      t_w := s.t_w.map (· * f)
      t_ftop := s.t_ftop.map (· * f)
      t_fbtn := s.t_fbtn.map (· * f)
      r := s.r.map (· * f)
      wt := s.wt.map (· * f)
      poly_outer := s.poly_outer.map (curve_scale f Settings.point_tol)
      poly_inner := s.poly_inner.map (curve_scale f Settings.point_tol)
      units := value }
  else .ok s

/-- Modelled from the spec: a penetration primitive (PrimBox, from
ada/concepts/primitives.py, not among the provided sources) carries two
corner points and its unit; per spec section 4.4 each penetration
rescales its own geometric state with the same scale and new unit, under
the idempotence guard.  Wall inserts are modelled by the same record. -/
structure PenU where
  p1 : Vec3
  p2 : Vec3
  units : Units
deriving DecidableEq

/-- Modelled from the spec: unit conversion of a penetration or insert
(see PenU). -/
def pen_set_units (pen : PenU) (value : Units) : Except AdaError PenU :=
  if pen.units ≠ value then do
    let f ← unit_length_conversion pen.units value
    .ok ⟨f • pen.p1, f • pen.p2, value⟩
  else .ok pen

/-- Beam state touched by its units setter (ada/concepts/structural.py
lines 247-256): the two end nodes, the section, the material, the
penetrations and the stored unit. -/
structure BeamEnt where
  n1 : NodeU
  n2 : NodeU
  sec : SectionU
  material : MaterialU
  penetrations : List PenU
  units : Units
deriving DecidableEq

/-- Direct translation of the Beam.units property setter
(ada/concepts/structural.py lines 247-256): under the idempotence guard
it assigns the new unit to n1, n2, the section, the material (an
assignment that raises NotImplementedError, see material_set_units) and
every penetration, and then updates the stored unit. -/
def beam_set_units (b : BeamEnt) (value : Units) : Except AdaError BeamEnt :=
  if b.units ≠ value then do
    let n1 ← node_set_units b.n1 value
    let n2 ← node_set_units b.n2 value
    let sec ← section_set_units b.sec value
    let mat ← material_set_units b.material value
    let pens ← b.penetrations.mapM (fun pen => pen_set_units pen value)
    .ok ⟨n1, n2, sec, mat, pens, value⟩
  else .ok b

/-- Plate state touched by its units setter (ada/concepts/structural.py
lines 654-666): thickness, boundary polygon, material, penetrations and
the stored unit. -/
structure PlateEnt where
  t : ℚ
  poly : List Vec3
  material : MaterialU
  penetrations : List PenU
  units : Units
deriving DecidableEq

/-- Direct translation of the Plate.units property setter
(ada/concepts/structural.py lines 654-666): under the idempotence guard
it computes the scale factor, multiplies the thickness, scales the
polygon, converts every penetration, assigns the new unit to the material
(raising NotImplementedError, see material_set_units) and updates the
stored unit.  The curve tolerance chosen by the source is
`Settings.mmtol if value == "mm" else Settings.mtol`; for an enum-valued
argument the string comparison is False, hence Settings.mtol. -/
def plate_set_units (p : PlateEnt) (value : Units) : Except AdaError PlateEnt :=
  if p.units ≠ value then do
    let f ← unit_length_conversion p.units value
    let pens ← p.penetrations.mapM (fun pen => pen_set_units pen value)
    let mat ← material_set_units p.material value
    .ok ⟨p.t * f, curve_scale f Settings.mtol p.poly, mat, pens, value⟩
  else .ok p

/-- Wall state touched by its units setter (ada/concepts/structural.py
lines 936-957) and by get_segment_props: height, thickness, offset,
placement origin, centerline points, penetrations, openings (two scaled
corner points each), inserts, and the stored unit. -/
structure WallEnt where
  height : ℚ
  thickness : ℚ
  offset : ℚ
  placement_origin : Vec3
  points : List Vec3
  penetrations : List PenU
  openings : List (Vec3 × Vec3)
  inserts : List PenU
  units : Units
deriving DecidableEq

/-- The wall's segment list `list(zip(points[:-1], points[1:]))`
(ada/concepts/structural.py line 713, recomputed identically from the
scaled points by the units setter at line 947). -/
def wall_segments (w : WallEnt) : List (Vec3 × Vec3) :=
  w.points.zip w.points.tail

/-- Direct translation of the Wall.units property setter
(ada/concepts/structural.py lines 936-957): under the idempotence guard
(written `value != self._units` in this setter) it scales height,
thickness, offset, the placement origin and every centerline point,
converts every penetration, rescales both corner tuples of every
opening, converts every insert, and updates the stored unit. -/
def wall_set_units (w : WallEnt) (value : Units) : Except AdaError WallEnt :=
  if value ≠ w.units then do
    let f ← unit_length_conversion w.units value
    let pens ← w.penetrations.mapM (fun pen => pen_set_units pen value)
    let ins ← w.inserts.mapM (fun pen => pen_set_units pen value)
    .ok ⟨w.height * f, w.thickness * f, w.offset * f, f • w.placement_origin,
      w.points.map (fun p => f • p), pens,
      w.openings.map (fun o => (f • o.1, f • o.2)), ins, value⟩
  else .ok w

/-- A concrete section in meters with nonzero dimensional parameters
(an IPE-like profile), used to evaluate the unit cascade. -/
def exSection : SectionU :=
  ⟨"IPE", some (4 / 10), some (18 / 100), some (18 / 100), some (86 / 10000),
    some (135 / 10000), some (135 / 10000), none, none, none, none, .M⟩

/-- A concrete beam in meters with nonzero geometric attributes, used to
evaluate the unit cascade at the failing input of C1. -/
def exBeamEnt : BeamEnt :=
  ⟨⟨⟨0, 0, 0⟩, .M⟩, ⟨⟨1, 0, 0⟩, .M⟩, exSection, ⟨.M⟩, [], .M⟩

/-- A concrete plate in meters with nonzero geometric attributes. -/
def exPlateEnt : PlateEnt :=
  ⟨1 / 100, [⟨0, 0, 0⟩, ⟨1, 0, 0⟩, ⟨1, 1, 0⟩, ⟨0, 1, 0⟩], ⟨.M⟩, [], .M⟩

/-- Global Z axis. -/
def zGlobal : Vec3 := ⟨0, 0, 1⟩

/-- Global X axis. -/
def xGlobal : Vec3 := ⟨1, 0, 0⟩

/-- Modelled from the spec: calc_zvec (ada/core/vector_utils.py, not
among the provided sources) produces the canonical reference up
direction: global Z unless xvec is nearly parallel to Z, in which case
global X (spec section 4.1).  In exact rational arithmetic
near-parallelism is embedded as exact parallelism, i.e. a vanishing
cross product. -/
def calc_zvec (xvec : Vec3) : Vec3 :=
  if cross xvec zGlobal = 0 then xGlobal else zGlobal

/-- Modelled from the spec: calc_yvec (ada/core/vector_utils.py, not
among the provided sources) is normalize(cross(xvec, up)) (spec section
4.1).  Unit directions obtained by normalization are represented
throughout by nonzero scalar multiples, under which representation
normalize is the identity, so the definition returns the cross product
itself. -/
def calc_yvec (xvec up : Vec3) : Vec3 :=
  cross xvec up

/-- Modelled from the spec: an angle value.  angle_between
(ada/core/vector_utils.py, not among the provided sources) returns the
angle between two vectors; it is represented symbolically by its two
defining vectors, which determine it.  The source converts the result to
degrees (np.rad2deg) before storing it, a unit change absorbed by the
symbolic representation; a directly supplied numeric angle is carried by
the deg constructor. -/
inductive AngleV where
  | deg (a : ℚ)
  | between (u v : Vec3)
deriving DecidableEq

/-- The derived local frame of a linear member (the fields stored at
ada/concepts/structural.py lines 150-153).  The source additionally
rounds the stored yvec components (core.utils.roundoff, not among the
provided sources; per spec section 4.1 the rounding only snaps
negligible components to exact zero), which is not modelled. -/
structure Frame where
  xvec : Vec3
  yvec : Vec3
  up : Vec3
  angle : AngleV
deriving DecidableEq

/-- The frame tolerance `tol = 1e-3` of Beam.__init__ (line 124). -/
def frame_tol : ℚ := 1 / 1000

/-- Modelled from the spec: unit_vector (ada/core/vector_utils.py, not
among the provided sources) normalizes a vector, rejecting a degenerate
zero input — the spec's DegenerateGeometryError for coincident end nodes
(spec sections 4.1 and 7).  Because a rational vector rarely has a
rational norm, the caller supplies the norm as len; the theorems
constrain it by len ^ 2 = normSq v and 0 < len. -/
def unit_vector (v : Vec3) (len : ℚ) : Except AdaError Vec3 :=
  if v = 0 then .error .degenerateGeometry else .ok (len⁻¹ • v)

/-- Direct translation of the orientation block of Beam.__init__
(ada/concepts/structural.py lines 121-153): xvec is
unit_vector(n2.p - n1.p) (degenerate members are rejected there).  When
an up hint is supplied, `vector_length(xvec - up) < tol` raises the
InvalidUpVectorError kind (the source's ValueError "The assigned up
vector is too close to your beam direction"), embedded as the equivalent
squared comparison; otherwise yvec = calc_yvec(xvec, up) and the output
angle is back-computed as angle_between(up, yvec).  When no up hint is
supplied the canonical up is calc_zvec(xvec) and the input angle
(default 0.0) is kept; the rotation of the canonical up about xvec
performed for a nonzero input angle uses transcendental functions
(pyquaternion) and is outside this rational model, so the embedded
default branch is the angle = 0 path. -/
def deriveFrame (n1 n2 : Vec3) (len : ℚ) (hint : Option Vec3) :
    Except AdaError Frame := do
  let xvec ← unit_vector (n2 - n1) len
  match hint with
  | none =>
    let up := calc_zvec xvec
    .ok ⟨xvec, calc_yvec xvec up, up, .deg 0⟩
  | some up =>
    if normSq (xvec - up) < frame_tol ^ 2 then .error .invalidUpVector
    else
      let yvec := calc_yvec xvec up
      .ok ⟨xvec, yvec, up, .between up yvec⟩

/-- Geometric state of a beam used by the connectivity resolver
(ada/concepts/structural.py): the raw end node positions and the
optional end eccentricity vectors e1, e2.  Beams are compared by
structural equality, embedding the deep field comparison performed by
the Python methods Beam.__eq__ / __ne__ for beams with distinct
geometry. -/
structure BeamGeo where
  n1 : Vec3
  n2 : Vec3
  e1 : Option Vec3
  e2 : Option Vec3
deriving DecidableEq

/-- Squared value of the Beam.length property (structural.py lines
310-319): the distance between the effective endpoints, each shifted by
its eccentricity when present. -/
def BeamGeo.lengthSq (b : BeamGeo) : ℚ :=
  let p1 := match b.e1 with
    | some e => b.n1 + e
    | none => b.n1
  let p2 := match b.e2 with
    | some e => b.n2 + e
    | none => b.n2
  sqDist p2 p1

/-- A joint / connection object as seen by calc_con_points
(ada/concepts/connections.py is not among the provided sources; the
fields below are exactly the ones the resolver reads: the joint
centroid `centre`, the member list `beams` and the designated main
member `main_mem`). -/
structure Joint where
  centre : Vec3
  beams : List BeamGeo
  main_mem : BeamGeo
deriving DecidableEq

/-- Direct translation of the local function is_mem_eccentric of
Beam.calc_con_points (structural.py lines 191-200): a member is flagged
eccentric when the distance from either of its endpoints to the joint
centroid lies strictly between point_tol and 90 percent of the member's
length (squared comparisons; equivalent for the nonnegative bounds);
`end` is set to whichever endpoint lies in that window, the n2 check
overwriting the n1 result. -/
def is_mem_eccentric (m : BeamGeo) (centre : Vec3) (point_tol : ℚ) :
    Bool × Option Vec3 :=
  let first :=
    if point_tol ^ 2 < sqDist m.n1 centre ∧
        sqDist m.n1 centre < (81 / 100) * m.lengthSq then
      (true, some m.n1)
    else (false, none)
  if point_tol ^ 2 < sqDist m.n2 centre ∧
      sqDist m.n2 centre < (81 / 100) * m.lengthSq then
    (true, some m.n2)
  else first

/-- The extra candidate points appended by the eccentricity-discovery
branch of calc_con_points (structural.py lines 202-210): for every
member of the joint other than the resolving member itself, the endpoint
chosen by is_mem_eccentric is appended when the member is flagged. -/
def ecc_extra_points (self_beam : BeamGeo) (con : Joint) (point_tol : ℚ) :
    List Vec3 :=
  con.beams.filterMap fun m =>
    if m = self_beam then none
    else
      let r := is_mem_eccentric m con.centre point_tol
      if r.1 then r.2 else none

/-- Modelled from the spec: sort_points_by_dist
(ada/core/vector_utils.py, not among the provided sources) sorts the
candidate points by distance from a reference point, ties broken by
original input order (spec section 4.2: stable sort).  Embedded as a
stable insertion sort on the squared distance. -/
def insert_by_dist (a : Vec3) (p : Vec3) : List Vec3 → List Vec3
  | [] => [p]
  | q :: rest =>
    if sqDist p a ≤ sqDist q a then p :: q :: rest
    else q :: insert_by_dist a p rest

/-- Modelled from the spec: see insert_by_dist. -/
def sort_points_by_dist (a : Vec3) : List Vec3 → List Vec3
  | [] => []
  | p :: rest => insert_by_dist a p (sort_points_by_dist a rest)

/-- Index of the first occurrence of a point in a list (Python
list.index; by construction the resolver only queries points present in
the list). -/
def idxOf (p : Vec3) : List Vec3 → Nat
  | [] => 0
  | q :: rest => if q = p then 0 else idxOf p rest + 1

/-- Loop state of the classification walk of calc_con_points: the
previous accepted point, the end-1 and end-2 joint bindings and the
interior split points collected so far. -/
structure ConState where
  prev : Option Vec3
  end1 : Option Joint
  end2 : Option Joint
  mids : List Vec3
deriving DecidableEq

/-- Direct translation of one iteration of the classification loop of
calc_con_points (structural.py lines 214-239): duplicate-of-previous
skip (note: `continue` leaves prev unchanged), end-1 binding when within
point_tol of n1 (the bound joint is connected_to[points.index(p)], a
lookup that raises IndexError when the index exceeds the joint list),
end-2 binding when within point_tol of n2, out-of-range discard when the
distance from either endpoint exceeds the member length, and otherwise
an interior split point.  All norm comparisons are squared. -/
def con_step (a b : Vec3) (lsq point_tol : ℚ) (connected : List Joint)
    (pts : List Vec3) (st : ConState) (p : Vec3) :
    Except AdaError ConState :=
  let dup := match st.prev with
    | some pv => decide (sqDist p pv < point_tol ^ 2)
    | none => false
  if dup then .ok st
  else if sqDist p a < point_tol ^ 2 then
    match connected.get? (idxOf p pts) with
    | some j => .ok ⟨some p, some j, st.end2, st.mids⟩
    | none => .error .indexError
  else if sqDist p b < point_tol ^ 2 then
    match connected.get? (idxOf p pts) with
    | some j => .ok ⟨some p, st.end1, some j, st.mids⟩
    | none => .error .indexError
  else if lsq < sqDist p a ∨ lsq < sqDist p b then
    .ok ⟨some p, st.end1, st.end2, st.mids⟩
  else .ok ⟨some p, st.end1, st.end2, st.mids ++ [p]⟩

/-- The classification walk of calc_con_points (structural.py lines
212-239): the loop over the sorted candidate points, threading the state
through con_step and propagating its IndexError. -/
def con_loop (a b : Vec3) (lsq point_tol : ℚ) (connected : List Joint)
    (pts : List Vec3) : List Vec3 → ConState → Except AdaError ConState
  | [], st => .ok st
  | p :: rest, st =>
    match con_step a b lsq point_tol connected pts st p with
    | .error e => .error e
    | .ok st2 => con_loop a b lsq point_tol connected pts rest st2

/-- The connectivity resolution result: the end-1 and end-2 joint
bindings stored on the beam and the returned interior split points. -/
structure ConRes where
  end1 : Option Joint
  end2 : Option Joint
  midpoints : List Vec3
deriving DecidableEq

/-- Direct translation of Beam.calc_con_points (structural.py lines
184-241): the candidate list is the tuple of every connected joint's
centroid; when the beam has exactly one connected joint and is that
joint's main member, the eccentricity-discovery extra points are
appended; the candidates are then sorted by distance from n1 and walked
by the classification loop. -/
def calc_con_points (self_beam : BeamGeo) (connected : List Joint)
    (point_tol : ℚ) : Except AdaError ConRes := do
  let a := self_beam.n1
  let b := self_beam.n2
  let cents := connected.map Joint.centre
  let pts :=
    match connected with
    | [con] =>
      if con.main_mem = self_beam then
        cents ++ ecc_extra_points self_beam con point_tol
      else cents
    | _ => cents
  let st ← con_loop a b self_beam.lengthSq point_tol connected pts
    (sort_points_by_dist a pts) ⟨none, none, none, []⟩
  .ok ⟨st.end1, st.end2, st.mids⟩

/-- The straight member of the C5 example: from the origin to (4,0,0),
no eccentricities. -/
def exBeamA : BeamGeo := ⟨⟨0, 0, 0⟩, ⟨4, 0, 0⟩, none, none⟩

/-- The three candidate joints of the C5 example, with centroids
(0,0,0), (4,0,0) and (2,0,0). -/
def exJoint0 : Joint := ⟨⟨0, 0, 0⟩, [], exBeamA⟩

/-- Second candidate joint of the C5 example. -/
def exJoint1 : Joint := ⟨⟨4, 0, 0⟩, [], exBeamA⟩

/-- Third candidate joint of the C5 example. -/
def exJoint2 : Joint := ⟨⟨2, 0, 0⟩, [], exBeamA⟩

/-- Out-of-range candidate joint of the C5 example, centroid (10,0,0). -/
def exJoint3 : Joint := ⟨⟨10, 0, 0⟩, [], exBeamA⟩

/-- The other member of the C6 counterexample: from (1,0,0) to (5,0,0)
(length 4), sharing a joint centred at the origin with exBeamA; its
near endpoint (1,0,0) is 1 away from the centroid — strictly between
point_tol and 90 percent of its length — and its far endpoint (5,0,0)
is 5 away, outside that window. -/
def exBeamM : BeamGeo := ⟨⟨1, 0, 0⟩, ⟨5, 0, 0⟩, none, none⟩

/-- The single joint of the C6 counterexample: centred at the origin,
main member exBeamA, shared with exBeamM. -/
def exJointEcc : Joint := ⟨⟨0, 0, 0⟩, [exBeamA, exBeamM], exBeamA⟩

/-- Modelled from the spec: the section category taxonomy (SectionCat of
ada/sections/categories.py, not among the provided sources; spec section
3 lists I-profile, T-profile, box, tubular, circular, channel, angle,
flat bar, polygon, general). -/
inductive BaseType where
  | angular
  | iprofile
  | tprofile
  | box
  | flatbar
  | channel
  | tubular
  | circular
  | general
  | poly
deriving DecidableEq

/-- Modelled from the spec: the type strings of each section category
(SectionCat's membership lists, not among the provided sources);
representative members suffice for the claims, which only depend on the
category a type string falls in. -/
def SectionCat.category_of (s : String) : Option BaseType :=
  if ["HP", "HP2"].contains s then some .angular
  else if ["IPE", "HEA", "HEB", "HEM"].contains s then some .iprofile
  else if ["TG"].contains s then some .tprofile
  else if ["BG", "CG", "SHS", "RHS"].contains s then some .box
  else if ["FB"].contains s then some .flatbar
  else if ["UNP"].contains s then some .channel
  else if ["TUB", "PIPE", "OD"].contains s then some .tubular
  else if ["CIRC"].contains s then some .circular
  else if ["GENBEAM"].contains s then some .general
  else if s = "poly" then some .poly
  else none

/-- Modelled from the spec: SectionCat.get_shape_type maps a section to
the base type of its categorized type string (spec section 4.3: dispatch
is a pure mapping from the section's categorized type). -/
def get_shape_type (sec : SectionU) : Option BaseType :=
  SectionCat.category_of sec.sec_type

/-- The profile view computed from a Section (dataclass SectionProfile
of ada/sections/concept.py; the curve fields default to None). -/
structure SectionProfile where
  outer_curve : Option (List Vec3)
  inner_curve : Option (List Vec3)
  shell_thickness_map : Option (List (String × ℚ))
  disconnected : Option Bool
  is_solid : Bool
deriving DecidableEq

/-- The five profile builders registered in build_map
(ada/sections/concept.py lines 368-375), as tags so that the presence
test of the dispatch stays decidable. -/
inductive BuilderTag where
  | angular
  | iprofile
  | box
  | flatbar
  | channel
deriving DecidableEq

/-- Direct translation of the build_map dictionary of
build_section_profile: ANGULAR, IPROFILE, BOX, FLATBAR and CHANNEL have
registered builders; every other category (including T-profile, poly and
an uncategorized type) misses. -/
def build_map (st : Option BaseType) : Option BuilderTag :=
  match st with
  | some .angular => some .angular
  | some .iprofile => some .iprofile
  | some .box => some .box
  | some .flatbar => some .flatbar
  | some .channel => some .channel
  | _ => none

/-- A rectangle of width w and height h centred at the origin, the
boundary-curve shape shared by the simplified builders below. -/
def rect_curve (w h : ℚ) : List Vec3 :=
  [⟨-(w / 2), -(h / 2), 0⟩, ⟨w / 2, -(h / 2), 0⟩, ⟨w / 2, h / 2, 0⟩,
    ⟨-(w / 2), h / 2, 0⟩]

/-- Modelled from the spec: the registered profile builders
(ada/sections/profiles.py, not among the provided sources) each emit a
single closed outer boundary from the section's dimensional parameters
(spec section 4.3); the claims depend only on which builder the dispatch
selects, so the boundary detail is reduced to the bounding rectangle of
the section and the sub-part thickness map to the I-profile entries the
spec names. -/
def apply_builder (tag : BuilderTag) (sec : SectionU) (is_solid : Bool) :
    SectionProfile :=
  let outer := rect_curve ((sec.w_top).getD 0) ((sec.h).getD 0)
  match tag with
  | .iprofile =>
    ⟨some outer, none,
      some [("web", (sec.t_w).getD 0), ("top_fl", (sec.t_ftop).getD 0),
        ("btn_fl", (sec.t_fbtn).getD 0)],
      some false, is_solid⟩
  | _ => ⟨some outer, none, none, some false, is_solid⟩

/-- Direct translation of build_section_profile
(ada/sections/concept.py lines 360-388): a tubular, circular or general
category short-circuits to an empty profile (no boundary curves); then
the builder lookup happens, and `if section_builder is None and
sec.poly_outer is None` raises the UnsupportedSectionTypeError kind
(ValueError "Currently geometry build is unsupported for profile type");
a registered builder is applied; otherwise a profile is returned with
the section's explicit outer polygon as outer curve and
disconnected=False. -/
def build_section_profile (sec : SectionU) (is_solid : Bool) :
    Except AdaError SectionProfile :=
  let st := get_shape_type sec
  if st = some .tubular ∨ st = some .circular ∨ st = some .general then
    .ok ⟨none, none, none, none, is_solid⟩
  else
    match build_map st, sec.poly_outer with
    | none, none => .error .unsupportedSectionType
    | some tag, _ => .ok (apply_builder tag sec is_solid)
    | none, some po => .ok ⟨some po, none, none, some false, is_solid⟩

/-- A tubular section (short-circuit case of C8). -/
def exSecTub : SectionU :=
  ⟨"TUB", none, none, none, none, none, none, some (1 / 10), some (1 / 100),
    none, none, .M⟩

/-- A section of unrecognized category with no explicit outer polygon
(error case of C8). -/
def exSecUnknown : SectionU :=
  ⟨"XYZ", none, none, none, none, none, none, none, none, none, none, .M⟩

/-- A section of unrecognized category carrying an explicit outer
polygon (fallback case of C8). -/
def exSecPoly : SectionU :=
  ⟨"XYZ", none, none, none, none, none, none, none, none,
    some [⟨0, 0, 0⟩, ⟨1, 0, 0⟩, ⟨1, 1, 0⟩], none, .M⟩

/-- Direct translation of Wall.get_segment_props
(ada/concepts/structural.py lines 777-790): the guard raises the
explicit ValueError only when the requested index is strictly greater
than the number of segments; then the segment list is indexed (a Python
list access that raises IndexError when the index equals the length),
and the segment frame is computed as xvec = unit_vector(p2 - p1),
zvec = (0,0,1), yvec = unit_vector(cross(zvec, xvec)); as elsewhere the
normalized directions are represented by their unnormalized
representatives and normalization of a zero vector is the degenerate
rejection. -/
def wall_get_segment_props (w : WallEnt) (wall_segment : Nat) :
    Except AdaError (Vec3 × Vec3 × Vec3) :=
  if wall_segment > (wall_segments w).length then .error .valueError
  else
    match (wall_segments w).get? wall_segment with
    | none => .error .indexError
    | some s =>
      let d := s.2 - s.1
      if d = 0 then .error .degenerateGeometry
      else
        let zvec : Vec3 := ⟨0, 0, 1⟩
        let yv := cross zvec d
        if yv = 0 then .error .degenerateGeometry
        else .ok (d, yv, zvec)

/-- A concrete wall with two centerline points, hence exactly one
segment, used by the C10 counterexample. -/
def exWall : WallEnt :=
  ⟨3, 1 / 10, 0, ⟨0, 0, 0⟩, [⟨0, 0, 0⟩, ⟨1, 0, 0⟩], [], [], [], .M⟩

end Adapy

namespace Adapy

/-- Unfolding lemma for vector subtraction. -/
theorem Vec3.sub_def (a b : Vec3) :
    a - b = ⟨a.x - b.x, a.y - b.y, a.z - b.z⟩ := rfl

/-- Unfolding lemma for scalar multiplication. -/
theorem Vec3.smul_def (c : ℚ) (v : Vec3) :
    c • v = ⟨c * v.x, c * v.y, c * v.z⟩ := rfl

/-- Unfolding lemma for the zero vector. -/
theorem Vec3.zero_def : (0 : Vec3) = ⟨0, 0, 0⟩ := rfl

/-- A vector minus itself is the zero vector. -/
theorem Vec3.sub_self (p : Vec3) : p - p = 0 := by
  simp [Vec3.sub_def, Vec3.zero_def]

/-- The squared norm of the zero vector vanishes. -/
theorem normSq_zero : normSq 0 = 0 := by
  simp [normSq, Vec3.zero_def]

/-- Unfolding lemma for bind on a successful Except value. -/
theorem except_bind_ok {α β : Type} (a : α) (f : α → Except AdaError β) :
    (Except.ok a >>= f) = f a := rfl

/-- Unfolding lemma for bind on a failed Except value. -/
theorem except_bind_error {α β : Type} (e : AdaError)
    (f : α → Except AdaError β) :
    ((Except.error e : Except AdaError α) >>= f) = Except.error e := rfl

/-- C2 counterexample: the claim asserts that the Unit System's
scale-factor lookup yields exactly 1.0 for every pair (A, A) with A in
{M, MM} and that a factor exists for every ordered pair, but
`Units.get_scale_factor(MM, MM)` returns `None`: the scale_map dictionary
has no (MM, MM) key. -/
theorem scale_factor_mm_mm_missing :
    Units.get_scale_factor Units.MM Units.MM = none ∧
      ¬ Units.get_scale_factor Units.MM Units.MM = some 1 := by
  constructor
  · rfl
  · simp [Units.get_scale_factor]

/-- C2 (amended): the scale-factor lookup yields 1.0 for (M, M), the
exact reciprocals 1000 and 1/1000 for (M, MM) and (MM, M), and `None`
for (MM, MM) — the identity-factor invariant holds for M but fails for
MM, and a factor exists for three of the four ordered pairs. -/
theorem scale_factor_table_values :
    Units.get_scale_factor Units.M Units.M = some 1 ∧
      Units.get_scale_factor Units.M Units.MM = some 1000 ∧
      Units.get_scale_factor Units.MM Units.M = some (1 / 1000) ∧
      Units.get_scale_factor Units.MM Units.MM = none ∧
      (1000 : ℚ) * (1 / 1000) = 1 := by
  refine ⟨rfl, rfl, rfl, rfl, by norm_num⟩

/-- C9: for every recognized unit token (lower-cased form "m" or "mm"),
`Units.from_str` returns `None` rather than the corresponding enum
member, and raises `InvalidUnit` exactly for the unrecognized tokens;
consequently a Root-derived entity constructed with a recognized string
units argument stores `None` as its unit. -/
theorem from_str_returns_none (s : String) :
    (Units.is_valid_unit s = true →
        Units.from_str s = .ok none ∧ rootInitUnits (.inr s) = .ok none) ∧
      (Units.is_valid_unit s = false → Units.from_str s = .error .invalidUnit) := by
  by_cases h1 : lowerStr s = "m"
  · constructor
    · intro _
      constructor <;>
        simp [Units.from_str, rootInitUnits, Units.units_map, List.lookup, h1]
    · intro h
      rw [Units.is_valid_unit, Units.value_strings, h1] at h
      simp at h
  · by_cases h2 : lowerStr s = "mm"
    · constructor
      · intro _
        constructor <;>
          simp [Units.from_str, rootInitUnits, Units.units_map, List.lookup, h1, h2]
      · intro h
        rw [Units.is_valid_unit, Units.value_strings, h2] at h
        simp at h
    · have hb1 : (lowerStr s == "m") = false := by simpa using h1
      have hb2 : (lowerStr s == "mm") = false := by simpa using h2
      constructor
      · intro h
        rw [Units.is_valid_unit, Units.value_strings] at h
        simp only [List.contains, List.elem, hb1, hb2] at h
        exact absurd h (by simp)
      · intro _
        simp only [Units.from_str, Units.units_map, List.lookup, hb1, hb2]

/-- C9 witness: the recognized token "m" maps to `.ok none` (and so does
the Root constructor given the string "m"), and the unrecognized token
"cm" raises InvalidUnit. -/
theorem from_str_returns_none_witness :
    Units.from_str "m" = .ok none ∧ rootInitUnits (.inr "m") = .ok none ∧
      Units.from_str "cm" = .error .invalidUnit := by
  refine ⟨((from_str_returns_none "m").1 (by decide)).1,
    ((from_str_returns_none "m").1 (by decide)).2,
    (from_str_returns_none "cm").2 (by decide)⟩

/-- C1: the claimed mm-and-back unit round trip cannot even complete for
a Beam (or a Plate): their units setters execute
`self.material.units = value`, and because Material overrides only
set_units and not the units property, the assignment hits the Root.units
property setter, which raises NotImplementedError.  Evaluating the
cascade at a concrete meter-unit beam and plate with nonzero geometric
attributes surfaces exactly that error, so `setUnits(MM)` never returns
and the round-trip property fails for these entities. -/
theorem beam_unit_cascade_fails_on_material :
    beam_set_units exBeamEnt Units.MM = .error .notImplemented ∧
      plate_set_units exPlateEnt Units.MM = .error .notImplemented := by
  constructor <;> rfl

/-- C7: setting the units of a Beam, Section, Plate or Wall to the unit
it already has mutates nothing: each setter's idempotence guard skips the
whole cascade and the entity is returned unchanged (in particular no
sub-object is replaced and no error can be raised). -/
theorem set_units_idempotent :
    (∀ b : BeamEnt, beam_set_units b b.units = .ok b) ∧
      (∀ s : SectionU, section_set_units s s.units = .ok s) ∧
      (∀ p : PlateEnt, plate_set_units p p.units = .ok p) ∧
      (∀ w : WallEnt, wall_set_units w w.units = .ok w) := by
  refine ⟨fun b => ?_, fun s => ?_, fun p => ?_, fun w => ?_⟩ <;>
    simp [beam_set_units, section_set_units, plate_set_units, wall_set_units]

/-- C3: deriving the local frame of a member whose two end nodes share
the same position fails with the DegenerateGeometryError kind, for every
point used as both endpoints, every supplied length and every up hint:
the normalization of n2 - n1 = 0 rejects the zero vector before any
other step of the orientation block runs. -/
theorem deriveFrame_degenerate_rejection (p : Vec3) (len : ℚ)
    (hint : Option Vec3) :
    deriveFrame p p len hint = .error .degenerateGeometry := by
  simp [deriveFrame, unit_vector, Vec3.sub_self, except_bind_error]

/-- C4: for a member with distinct endpoints (rational length len > 0
with len ^ 2 = normSq (n2 - n1)) and a supplied up hint, frame
derivation fails with the InvalidUpVectorError kind exactly when the
distance between xvec = normalize(n2 - n1) and the hint is below the
tolerance (squared comparison, equivalent for the positive tolerance);
otherwise it succeeds with yvec = calc_yvec(xvec, up) — the normalized
cross product — and the output angle back-computed as the angle between
the up hint and yvec. -/
theorem deriveFrame_up_vector_spec (n1 n2 up : Vec3) (len : ℚ)
    (hpos : 0 < len) (hlen : len ^ 2 = normSq (n2 - n1)) :
    (deriveFrame n1 n2 len (some up) = .error .invalidUpVector ↔
        normSq (len⁻¹ • (n2 - n1) - up) < frame_tol ^ 2) ∧
      (¬ normSq (len⁻¹ • (n2 - n1) - up) < frame_tol ^ 2 →
        deriveFrame n1 n2 len (some up) =
          .ok ⟨len⁻¹ • (n2 - n1), calc_yvec (len⁻¹ • (n2 - n1)) up, up,
            .between up (calc_yvec (len⁻¹ • (n2 - n1)) up)⟩) := by
  have hne : ¬ n2 - n1 = 0 := by
    intro h
    rw [h, normSq_zero, pow_eq_zero_iff two_ne_zero] at hlen
    exact absurd hlen hpos.ne'
  by_cases hc : normSq (len⁻¹ • (n2 - n1) - up) < frame_tol ^ 2
  · constructor
    · simp [deriveFrame, unit_vector, hne, except_bind_ok, hc]
    · intro h
      exact absurd hc h
  · constructor
    · simp [deriveFrame, unit_vector, hne, except_bind_ok, hc]
    · intro _
      simp [deriveFrame, unit_vector, hne, except_bind_ok, hc]

/-- C4 witness: for the member from the origin to (1,0,0) (length 1),
the up hint (1,0,0) — the longitudinal direction itself — is rejected
with the InvalidUpVectorError kind, while the up hint (0,0,1) yields the
frame with yvec = calc_yvec(xvec, up) and the back-computed angle. -/
theorem deriveFrame_up_vector_spec_witness :
    deriveFrame ⟨0, 0, 0⟩ ⟨1, 0, 0⟩ 1 (some ⟨1, 0, 0⟩) =
        .error .invalidUpVector ∧
      deriveFrame ⟨0, 0, 0⟩ ⟨1, 0, 0⟩ 1 (some ⟨0, 0, 1⟩) =
        .ok ⟨(1 : ℚ)⁻¹ • ((⟨1, 0, 0⟩ : Vec3) - ⟨0, 0, 0⟩),
          calc_yvec ((1 : ℚ)⁻¹ • ((⟨1, 0, 0⟩ : Vec3) - ⟨0, 0, 0⟩)) ⟨0, 0, 1⟩,
          ⟨0, 0, 1⟩,
          .between ⟨0, 0, 1⟩
            (calc_yvec ((1 : ℚ)⁻¹ • ((⟨1, 0, 0⟩ : Vec3) - ⟨0, 0, 0⟩)) ⟨0, 0, 1⟩)⟩ := by
  constructor
  · exact (deriveFrame_up_vector_spec ⟨0, 0, 0⟩ ⟨1, 0, 0⟩ ⟨1, 0, 0⟩ 1
      (by norm_num) (by norm_num [normSq, Vec3.sub_def])).1.mpr
      (by norm_num [normSq, Vec3.sub_def, Vec3.smul_def, frame_tol])
  · exact (deriveFrame_up_vector_spec ⟨0, 0, 0⟩ ⟨1, 0, 0⟩ ⟨0, 0, 1⟩ 1
      (by norm_num) (by norm_num [normSq, Vec3.sub_def])).2
      (by norm_num [normSq, Vec3.sub_def, Vec3.smul_def, frame_tol])

set_option maxHeartbeats 1600000 in
/-- C5: for the straight member from (0,0,0) to (4,0,0) with candidate
joint centroids (0,0,0), (4,0,0) and (2,0,0) and point_tol = 1e-4,
connectivity resolution binds the first candidate as the end-1 joint,
the second as the end-2 joint, and returns exactly one interior split
point (2,0,0); adding the candidate (10,0,0) — whose distance from both
ends exceeds the member length — leaves the result unchanged. -/
theorem calc_con_points_classification_example :
    calc_con_points exBeamA [exJoint0, exJoint1, exJoint2]
        Settings.point_tol = .ok ⟨some exJoint0, some exJoint1, [⟨2, 0, 0⟩]⟩ ∧
      calc_con_points exBeamA [exJoint0, exJoint1, exJoint2, exJoint3]
        Settings.point_tol = .ok ⟨some exJoint0, some exJoint1, [⟨2, 0, 0⟩]⟩ := by
  constructor <;>
    norm_num [calc_con_points, con_loop, con_step, sort_points_by_dist,
      insert_by_dist, idxOf, sqDist, normSq, Vec3.sub_def, BeamGeo.lengthSq,
      ecc_extra_points, is_mem_eccentric, Settings.point_tol, except_bind_ok,
      List.filterMap_cons, exBeamA, exJoint0, exJoint1, exJoint2, exJoint3]

set_option maxHeartbeats 1600000 in
/-- C6 counterexample: for the main member exBeamA whose single joint
(centred at the origin) is shared with exBeamM — a member from (1,0,0)
to (5,0,0) — the eccentricity-discovery branch flags exBeamM and appends
its NEAR endpoint (1,0,0), the endpoint inside the (point_tol, 0.9 x
length) window at distance 1 from the centroid, not the far endpoint
(5,0,0) the claim names: the resolved interior split points are exactly
[(1,0,0)], where the claimed far-endpoint candidate (5,0,0) would have
been discarded as out of range, leaving no interior point at all. -/
theorem ecc_discovery_adds_near_endpoint :
    is_mem_eccentric exBeamM ⟨0, 0, 0⟩ Settings.point_tol =
        (true, some ⟨1, 0, 0⟩) ∧
      calc_con_points exBeamA [exJointEcc] Settings.point_tol =
        .ok ⟨some exJointEcc, none, [⟨1, 0, 0⟩]⟩ := by
  constructor <;>
    norm_num [calc_con_points, con_loop, con_step, sort_points_by_dist,
      insert_by_dist, idxOf, sqDist, normSq, Vec3.sub_def, BeamGeo.lengthSq,
      ecc_extra_points, is_mem_eccentric, Settings.point_tol, except_bind_ok,
      List.filterMap_cons, exBeamA, exBeamM, exJointEcc]

/-- C6 (amended): when a member has exactly one connected joint and is
its main member, every other member sharing the joint is flagged
eccentric exactly when one of its endpoints lies strictly between
point_tol and 90 percent of its length from the joint centroid (squared
comparisons), and the endpoint appended as extra candidate is that
in-window endpoint itself — the near, offset endpoint — with the n2
endpoint taking precedence when both endpoints lie in the window; the
far endpoint is never the one appended unless it is itself in the
window. -/
theorem is_mem_eccentric_window_spec (m : BeamGeo) (c : Vec3)
    (point_tol : ℚ) :
    ((point_tol ^ 2 < sqDist m.n1 c ∧
        sqDist m.n1 c < (81 / 100) * m.lengthSq) →
      ¬ (point_tol ^ 2 < sqDist m.n2 c ∧
        sqDist m.n2 c < (81 / 100) * m.lengthSq) →
      is_mem_eccentric m c point_tol = (true, some m.n1)) ∧
    ((point_tol ^ 2 < sqDist m.n2 c ∧
        sqDist m.n2 c < (81 / 100) * m.lengthSq) →
      is_mem_eccentric m c point_tol = (true, some m.n2)) ∧
    (¬ (point_tol ^ 2 < sqDist m.n1 c ∧
        sqDist m.n1 c < (81 / 100) * m.lengthSq) →
      ¬ (point_tol ^ 2 < sqDist m.n2 c ∧
        sqDist m.n2 c < (81 / 100) * m.lengthSq) →
      is_mem_eccentric m c point_tol = (false, none)) := by
  refine ⟨fun h1 h2 => ?_, fun h2 => ?_, fun h1 h2 => ?_⟩ <;>
    simp [is_mem_eccentric, *]

/-- C6 amended witness: for the member from (1,0,0) to (5,0,0) and the
joint centroid at the origin with point_tol = 1e-4, the n1 endpoint is
in the window (distance 1, window bounds 1e-4 and 3.6), the n2 endpoint
is not (distance 5), and the flagged extra point is the in-window n1
endpoint (1,0,0). -/
theorem is_mem_eccentric_window_spec_witness :
    is_mem_eccentric exBeamM ⟨0, 0, 0⟩ Settings.point_tol =
      (true, some exBeamM.n1) :=
  (is_mem_eccentric_window_spec exBeamM ⟨0, 0, 0⟩ Settings.point_tol).1
    (by norm_num [sqDist, normSq, Vec3.sub_def, BeamGeo.lengthSq, exBeamM,
      Settings.point_tol])
    (by norm_num [sqDist, normSq, Vec3.sub_def, BeamGeo.lengthSq, exBeamM,
      Settings.point_tol])

/-- C8: for every section, building its profile short-circuits to an
empty profile (no boundary curves) when the section's category is
tubular, circular or general; otherwise it fails with the
UnsupportedSectionTypeError kind exactly when no profile builder is
registered for the category and the section has no explicit outer
polygon; and when no builder exists but an explicit outer polygon is
supplied, the returned profile uses that polygon as its outer curve. -/
theorem build_section_profile_dispatch (sec : SectionU) (is_solid : Bool) :
    (get_shape_type sec = some .tubular ∨ get_shape_type sec = some .circular ∨
        get_shape_type sec = some .general →
      build_section_profile sec is_solid = .ok ⟨none, none, none, none, is_solid⟩) ∧
      (¬ (get_shape_type sec = some .tubular ∨
          get_shape_type sec = some .circular ∨
          get_shape_type sec = some .general) →
        (build_section_profile sec is_solid = .error .unsupportedSectionType ↔
          build_map (get_shape_type sec) = none ∧ sec.poly_outer = none)) ∧
      (¬ (get_shape_type sec = some .tubular ∨
          get_shape_type sec = some .circular ∨
          get_shape_type sec = some .general) →
        build_map (get_shape_type sec) = none →
        ∀ po, sec.poly_outer = some po →
          build_section_profile sec is_solid =
            .ok ⟨some po, none, none, some false, is_solid⟩) := by
  refine ⟨fun hs => ?_, fun hs => ?_, fun hs hb po hpo => ?_⟩
  · simp only [build_section_profile]
    rw [if_pos hs]
  · rcases hb : build_map (get_shape_type sec) with _ | tag <;>
      rcases hp : sec.poly_outer with _ | po <;>
      simp [build_section_profile, if_neg hs, hb, hp]
  · simp [build_section_profile, if_neg hs, hb, hpo]

/-- C8 witness: the tubular section short-circuits to the empty profile;
the uncategorized section without polygon fails with the
UnsupportedSectionTypeError kind; the uncategorized section with an
explicit polygon returns it as outer curve. -/
theorem build_section_profile_dispatch_witness :
    build_section_profile exSecTub true = .ok ⟨none, none, none, none, true⟩ ∧
      build_section_profile exSecUnknown true = .error .unsupportedSectionType ∧
      build_section_profile exSecPoly true =
        .ok ⟨some [⟨0, 0, 0⟩, ⟨1, 0, 0⟩, ⟨1, 1, 0⟩], none, none, some false, true⟩ := by
  refine ⟨(build_section_profile_dispatch exSecTub true).1 (by decide),
    ((build_section_profile_dispatch exSecUnknown true).2.1 (by decide)).mpr
      ⟨by decide, rfl⟩,
    (build_section_profile_dispatch exSecPoly true).2.2 (by decide) (by decide)
      [⟨0, 0, 0⟩, ⟨1, 0, 0⟩, ⟨1, 1, 0⟩] rfl⟩

/-- C10 counterexample: the claim says every segment index passing the
validation guard of Wall.get_segment_props is in-bounds, so the explicit
ValueError is the only failure branch; but for a wall with one segment
the index 1 passes the guard (1 is not greater than 1) and the segment
lookup then fails out of bounds — the IndexError kind, not the explicit
ValueError. -/
theorem get_segment_props_off_by_one :
    (wall_segments exWall).length = 1 ∧
      wall_get_segment_props exWall 1 = .error .indexError := by
  constructor <;> rfl

/-- C10 (amended): for every wall, a segment index strictly below the
number of segments is a valid in-bounds index into the segment list; the
index equal to the number of segments passes the guard but fails with
the IndexError kind at the list access; and the explicit ValueError is
raised exactly for indices strictly greater than the number of
segments. -/
theorem get_segment_props_bounds_spec (w : WallEnt) (i : Nat) :
    (i < (wall_segments w).length →
        ∃ s, (wall_segments w).get? i = some s) ∧
      (i = (wall_segments w).length →
        wall_get_segment_props w i = .error .indexError) ∧
      ((wall_segments w).length < i →
        wall_get_segment_props w i = .error .valueError) := by
  refine ⟨fun hlt => ⟨(wall_segments w).get ⟨i, hlt⟩, List.get?_eq_get hlt⟩,
    fun heq => ?_, fun hgt => ?_⟩
  · subst heq
    simp [wall_get_segment_props, List.get?_eq_none.mpr le_rfl]
  · simp [wall_get_segment_props, hgt]

/-- C10 amended witness: for the one-segment wall, index 0 is in
bounds, index 1 (the segment count) hits the IndexError kind, and index
2 hits the explicit ValueError. -/
theorem get_segment_props_bounds_spec_witness :
    (∃ s, (wall_segments exWall).get? 0 = some s) ∧
      wall_get_segment_props exWall 1 = .error .indexError ∧
      wall_get_segment_props exWall 2 = .error .valueError :=
  ⟨(get_segment_props_bounds_spec exWall 0).1 (by decide),
    (get_segment_props_bounds_spec exWall 1).2.1 (by decide),
    (get_segment_props_bounds_spec exWall 2).2.2 (by decide)⟩

end Adapy
